import Mathlib

/-!
Verification development for the deprecation-assistant QA engine
(`src/ai/qa_engine.py` and `src/ai/llm_client.py`).

Strings are modelled as `List Char`.  Python's `str.lower` is modelled by
mapping `Char.toLower` (the questions and catalog data handled by the engine
are ASCII).  Python's substring test `t in s` is modelled by `subIn`,
`str.strip` by `stripWs`, and the two regular expressions used by the engine
(`pending removal in python\s*(3\.\d+)`, `\bpython\s*3\.\d+\b` and
`scrum-(\d+)`) by explicit leftmost-match scanners over character lists.
Python's `sorted(..., key=score, reverse=True)` is a stable descending sort;
it is modelled by Mathlib's `List.insertionSort` with the relation
`keyDesc score`, which inserts an element before the first element of
not-larger score and therefore keeps tied elements in their original order,
exactly as CPython's stable sort does.
-/

/-- ASCII whitespace, as matched by Python's `\s` and stripped by `str.strip`
for the ASCII inputs the engine handles. -/
def isSpace (c : Char) : Bool :=
  c = ' ' || c = '\t' || c = '\n' || c = '\r' || c = '\x0b' || c = '\x0c'

/-- Python `str.lower` on ASCII text (`query.lower()` in `qa_engine.py`). -/
def lcase (s : List Char) : List Char := s.map Char.toLower

/-- Python's substring test `t in s`: `t` occurs contiguously in `s`. -/
def subIn (t : List Char) : List Char → Bool
  | [] => t.isPrefixOf []
  | c :: cs => t.isPrefixOf (c :: cs) || subIn t cs

/-- Python `str.strip()`: drop leading and trailing whitespace. -/
def stripWs (s : List Char) : List Char :=
  ((s.dropWhile isSpace).reverse.dropWhile isSpace).reverse

/-- Record `DeprecationInfo` from `src/models.py`. -/
structure DeprecationInfo where
  feature : List Char
  version_deprecated : List Char
  version_removed : Option (List Char) := none
  module : Option (List Char) := none
  description : List Char := []
  replacement : Option (List Char) := none
  url : Option (List Char) := none
deriving DecidableEq

/-- Record `JiraTicket` from `src/models.py`. -/
structure JiraTicket where
  key : List Char
  summary : List Char
  status : List Char
  description : List Char
  assignee : Option (List Char) := none
deriving DecidableEq

/-- Record `BacklogTask` from `src/models.py`. -/
structure BacklogTask where
  title : List Char
  description : List Char
  source_file : List Char
deriving DecidableEq

/-- Attempt of the pattern `pending removal in python\s*(3\.\d+)`
(`qa_engine.py` line 27) anchored at the head of `s`; returns the captured
group `3.<digits>`.  The whitespace and digit repetitions are greedy; since
`'3'` is not whitespace and the character after the digit run is not a digit,
the greedy scan needs no backtracking. -/
def removalAt (s : List Char) : Option (List Char) :=
  let lit := "pending removal in python".toList
  if lit.isPrefixOf s then
    match (s.drop lit.length).dropWhile isSpace with
    | '3' :: '.' :: ds =>
      let digits := ds.takeWhile Char.isDigit
      if digits.isEmpty then none else some ('3' :: '.' :: digits)
    | _ => none
  else none

/-- Scan modelling `re.search` for the pattern of `removalAt`: leftmost match wins. -/
def removalSearch : List Char → Option (List Char)
  | [] => none
  | c :: cs =>
    match removalAt (c :: cs) with
    | some t => some t
    | none => removalSearch cs

/-- The character class `[a-z0-9_.]` kept by the tokenizer
(`re.sub(r"[^a-z0-9_\.]+", " ", q)` in `qa_engine.py` line 34). -/
def allowedChar (c : Char) : Bool :=
  ('a' ≤ c && c ≤ 'z') || ('0' ≤ c && c ≤ '9') || c = '_' || c = '.'

/-- Accumulator pass splitting a string into its maximal runs of allowed
characters; this models `re.sub(r"[^a-z0-9_\.]+", " ", q).strip().split()`. -/
def splitRunsAux : List Char → List Char → List (List Char)
  | [], acc => if acc.isEmpty then [] else [acc.reverse]
  | c :: cs, acc =>
    if allowedChar c then splitRunsAux cs (c :: acc)
    else if acc.isEmpty then splitRunsAux cs [] else acc.reverse :: splitRunsAux cs []

/-- Maximal runs of `[a-z0-9_.]` characters, in order. -/
def splitRuns (s : List Char) : List (List Char) := splitRunsAux s []

/-- The stop-word set dropped by the tokenizer (`qa_engine.py` line 35). -/
def stopTokens : List (List Char) :=
  ["deprecation".toList, "deprecated".toList, "remove".toList, "removal".toList, "eol".toList]

/-- Tokens of a query: runs of allowed characters of the lowercased query,
minus stop words (`qa_engine.py` lines 34-35). -/
def tokensOf (query : List Char) : List (List Char) :=
  (splitRuns (lcase query)).filter (fun t => !(stopTokens.contains t))

/-- The haystack `" ".join([feature or "", module or "", description or ""]).lower()`
scored against each token (`qa_engine.py` lines 38-42). -/
def hayOf (d : DeprecationInfo) : List Char :=
  lcase (d.feature ++ ' ' :: (d.module.getD []) ++ ' ' :: d.description)

/-- The `score` closure of `QAEngine._find_deprecations` (lines 37-51):
+2 per token occurring in the haystack, +3 more per token occurring in the
(nonempty) feature field. -/
def scoreOf (tokens : List (List Char)) (d : DeprecationInfo) : Nat :=
  tokens.foldl (fun s t =>
    if t.isEmpty then s
    else
      let s2 := if subIn t (hayOf d) then s + 2 else s
      if !d.feature.isEmpty && subIn t (lcase d.feature) then s2 + 3 else s2) 0

/-- Descending comparison by a `Nat` key: `a` may come before `b` when
`k b ≤ k a`.  `List.insertionSort` with this relation is the stable
descending sort `sorted(..., key=k, reverse=True)`. -/
def keyDesc {α : Type*} (k : α → Nat) (a b : α) : Prop := k b ≤ k a

instance {α : Type*} (k : α → Nat) : DecidableRel (keyDesc k) :=
  fun a b => Nat.decLe (k b) (k a)

instance {α : Type*} (k : α → Nat) : IsTotal α (keyDesc k) :=
  ⟨fun a b => Nat.le_total (k b) (k a)⟩

instance {α : Type*} (k : α → Nat) : IsTrans α (keyDesc k) :=
  ⟨fun _ _ _ h1 h2 => Nat.le_trans h2 h1⟩

/-- Mode tag of a `MatchResult` (the first component of the tuples returned
by `QAEngine._find_deprecations`). -/
inductive MatchMode
  | REMOVAL_LIST
  | FEATURE_SEARCH
deriving DecidableEq

/-- The `(mode, target, hits)` tuple returned by `QAEngine._find_deprecations`. -/
structure MatchResult where
  mode : MatchMode
  target : Option (List Char)
  hits : List DeprecationInfo
deriving DecidableEq

/-- Hits of the REMOVAL_LIST branch (`qa_engine.py` line 30):
`[d for d in deprecations if (d.version_removed or "").lower() == target.lower()]`. -/
def removalHits (target : List Char) (deprecations : List DeprecationInfo) :
    List DeprecationInfo :=
  deprecations.filter (fun d => lcase (d.version_removed.getD []) == lcase target)

/-- Hits of the FEATURE_SEARCH branch (`qa_engine.py` lines 53-54):
stable-sort by score descending, keep positive scores, cap at 10. -/
def featureHits (query : List Char) (deprecations : List DeprecationInfo) :
    List DeprecationInfo :=
  let tokens := tokensOf query
  ((List.insertionSort (keyDesc (scoreOf tokens)) deprecations).filter
    (fun d => decide (0 < scoreOf tokens d))).take 10

/-- Function `QAEngine._find_deprecations` (`qa_engine.py` lines 23-55). -/
def find_deprecations (query : List Char) (deprecations : List DeprecationInfo) :
    MatchResult :=
  match removalSearch (lcase query) with
  | some target => ⟨MatchMode.REMOVAL_LIST, some target, removalHits target deprecations⟩
  | none => ⟨MatchMode.FEATURE_SEARCH, none, featureHits query deprecations⟩

/-- The `valid_intents` list of `QAEngine.answer_query` (line 107), in source
order. -/
def valid_intents : List (List Char) :=
  ["DEPRECATION_INFO".toList, "DEPRECATION_GAP".toList, "JIRA_LIST".toList,
   "JIRA_DETAIL".toList, "JIRA_COUNT".toList, "BACKLOG_LIST".toList,
   "BACKLOG_PICKUP".toList, "GENERAL".toList]

/-- The deprecation keyword list of the strong override (line 120). -/
def deprecationKeys : List (List Char) :=
  ["deprecation".toList, "deprecated".toList, "pending removal".toList,
   "removal".toList, "eol".toList]

/-- Python `\w` (ASCII): letters, digits, underscore. -/
def isWordChar (c : Char) : Bool := c.isAlphanum || c = '_'

/-- Attempt of `\bpython\s*3\.\d+\b` (line 121) anchored at the head of `s`;
`prevWord` says whether the character just before `s` is a word character
(for the leading `\b`).  The trailing `\b` requires the character after the
maximal digit run to be absent or a non-word character; backtracking the
greedy `\d+` cannot help since a digit-digit boundary is never a word
boundary. -/
def pyVerAt (prevWord : Bool) (s : List Char) : Bool :=
  if prevWord then false
  else if "python".toList.isPrefixOf s then
    match (s.drop 6).dropWhile isSpace with
    | '3' :: '.' :: ds =>
      let digits := ds.takeWhile Char.isDigit
      if digits.isEmpty then false
      else
        match ds.dropWhile Char.isDigit with
        | [] => true
        | c :: _ => !isWordChar c
    | _ => false
  else false

/-- Scan modelling `re.search` for `\bpython\s*3\.\d+\b`: try all positions, tracking
whether the previous character is a word character. -/
def pyVerSearch : Bool → List Char → Bool
  | _, [] => false
  | prevWord, c :: cs => pyVerAt prevWord (c :: cs) || pyVerSearch (isWordChar c) cs

/-- The substring scan of the classifier reply against `valid_intents`
(lines 108-113): the first canonical intent occurring in the reply. -/
def findValid (reply : List Char) : Option (List Char) :=
  valid_intents.find? (fun v => subIn v reply)

/-- The intent computed by `QAEngine.answer_query` (lines 104-132) as a
function of the raw classifier reply: strip the reply, extract the first
canonical intent name occurring in it, then apply the deterministic
keyword overrides, and finally default to GENERAL when no canonical name
was found and no override fired. -/
def routeIntent (query reply : List Char) : List Char :=
  let intent0 := stripWs reply
  let found := (findValid intent0).isSome
  let intent1 := (findValid intent0).getD intent0
  let msg := lcase query
  let intent2 :=
    if deprecationKeys.any (fun k => subIn k msg) || pyVerSearch false msg then
      "DEPRECATION_INFO".toList
    else intent1
  let intent3 :=
    if subIn "scrum-".toList msg then "JIRA_DETAIL".toList
    else if subIn "how many".toList msg && subIn "ticket".toList msg then
      "JIRA_COUNT".toList
    else intent2
  if !found && !(valid_intents.contains intent3) then "GENERAL".toList else intent3

/-- The string `OllamaClient.generate_response` returns when the HTTP request
raises (`llm_client.py` lines 38-39): the exception is swallowed into
`"Error calling Ollama: " + str(e)` instead of propagating. -/
def ollamaErrorReply (e : List Char) : List Char := "Error calling Ollama: ".toList ++ e

/-- Python's `"\n".join`. -/
def joinNL : List (List Char) → List Char
  | [] => []
  | [x] => x
  | x :: y :: xs => x ++ '\n' :: joinNL (y :: xs)

/-- The BACKLOG_PICKUP filter (`qa_engine.py` lines 222-223): items whose
lowercased title is not in the list of lowercased ticket summaries. -/
def pickup_list (tasks : List BacklogTask) (tickets : List JiraTicket) :
    List BacklogTask :=
  let summaries := tickets.map (fun t => lcase t.summary)
  tasks.filter (fun t => !(summaries.contains (lcase t.title)))

/-- The BACKLOG_PICKUP context string (`qa_engine.py` lines 225-230). -/
def backlogPickupContext (tasks : List BacklogTask) (tickets : List JiraTicket) :
    List Char :=
  let pl := pickup_list tasks tickets
  if pl.isEmpty then "Everything in backlog is already in Jira.".toList
  else "Items to Pickup (in Backlog but not Jira):\n".toList ++ joinNL (pl.map (fun t => t.title))

/-- The DEPRECATION_GAP filter (`qa_engine.py` lines 147-158): a record is a
gap when its lowercased feature is a substring of no lowercased backlog
title.  The source iterates a Python set of lowered titles with early exit;
only existence matters, so iterating the list is equivalent. -/
def gap_items (deprecations : List DeprecationInfo) (tasks : List BacklogTask) :
    List DeprecationInfo :=
  let titles := tasks.map (fun t => lcase t.title)
  deprecations.filter (fun dep => !(titles.any (fun title => subIn (lcase dep.feature) title)))

/-- One rendered gap line (`qa_engine.py` line 164). -/
def gapLine (d : DeprecationInfo) : List Char :=
  "- ".toList ++ d.feature ++ " (Deprecated: ".toList ++ d.version_deprecated ++ ")".toList

/-- The DEPRECATION_GAP context string (`qa_engine.py` lines 160-165). -/
def gapContext (deprecations : List DeprecationInfo) (tasks : List BacklogTask) :
    List Char :=
  let gi := gap_items deprecations tasks
  if gi.isEmpty then "All deprecations seem to be represented in the backlog.".toList
  else "Deprecations NOT found in Backlog:\n".toList ++ joinNL (gi.map gapLine)

/-- Attempt of `scrum-(\d+)` (line 194) anchored at the head of `s`; returns
the captured digit run. -/
def scrumAt (s : List Char) : Option (List Char) :=
  if "scrum-".toList.isPrefixOf s then
    let ds := (s.drop 6).takeWhile Char.isDigit
    if ds.isEmpty then none else some ds
  else none

/-- Scan modelling `re.search(r"scrum-(\d+)", msg_lower)`: leftmost match. -/
def scrumFind : List Char → Option (List Char)
  | [] => none
  | c :: cs =>
    match scrumAt (c :: cs) with
    | some ds => some ds
    | none => scrumFind cs

/-- Python string interpolation of an optional value: `None` prints as
`"None"` (the `Assignee: {ticket.assignee}` line). -/
def pyStrOpt : Option (List Char) → List Char
  | none => "None".toList
  | some s => s

/-- The rendered ticket block of JIRA_DETAIL (`qa_engine.py` lines 199-206). -/
def ticketBlock (t : JiraTicket) : List Char :=
  "Ticket Details:\nKey: ".toList ++ t.key ++ "\nSummary: ".toList ++ t.summary ++
    "\nStatus: ".toList ++ t.status ++ "\nDescription: ".toList ++ t.description ++
    "\nAssignee: ".toList ++ pyStrOpt t.assignee

/-- The reconstructed upper-case ticket key `f"SCRUM-{digits}"` (line 196). -/
def scrumKey (ds : List Char) : List Char := "SCRUM-".toList ++ ds

/-- The JIRA_DETAIL context (`qa_engine.py` lines 193-210), parameterized by
the ticket provider `JiraConnector.get_ticket` (an external collaborator
returning an optional ticket). -/
def jiraDetailContext (query : List Char) (getTicket : List Char → Option JiraTicket) :
    List Char :=
  match scrumFind (lcase query) with
  | some ds =>
    match getTicket (scrumKey ds) with
    | some t => ticketBlock t
    | none => "Ticket ".toList ++ scrumKey ds ++ " not found.".toList
  | none => "Could not identify ticket key (SCRUM-XXX) in query.".toList

/-! Concrete sample data used to instantiate the theorems below: catalog
records shaped like the ones the scraper produces, the mock tickets of
`JiraConnector`, and the mock backlog of `GDriveConnector`. -/

/-- Sample catalog record: a feature removed in 3.12. -/
def recSsl : DeprecationInfo :=
  ⟨"ssl.wrap_socket".toList, "3.7".toList, some "3.12".toList, some "ssl".toList,
    "Use SSLContext.wrap_socket instead".toList, none, none⟩

/-- Sample catalog record: a feature removed in 3.11. -/
def recAsyncio : DeprecationInfo :=
  ⟨"asyncio.coroutine".toList, "3.8".toList, some "3.11".toList, some "asyncio".toList,
    "Use async def instead".toList, none, none⟩

/-- Sample catalog record named in the spec's DEPRECATION_GAP example. -/
def recSmtpd : DeprecationInfo :=
  ⟨"smtpd module".toList, "3.6".toList, some "3.12".toList, some "smtpd".toList,
    "Use aiosmtpd instead".toList, none, none⟩

/-- A record whose version-removed field is 3.15. -/
def recR : DeprecationInfo :=
  ⟨"old feature".toList, "3.0".toList, some "3.15".toList, none, [], none, none⟩

/-- Two-record sample catalog. -/
def catalog2 : List DeprecationInfo := [recSsl, recAsyncio]

/-- Eleven records all removed in 3.15. -/
def catalog11 : List DeprecationInfo := List.replicate 11 recR

/-- A question matching the removal pattern with target 3.12. -/
def q_c1 : List Char := "what is pending removal in python 3.12?".toList

/-- The removal question used against `catalog11`. -/
def q_removal15 : List Char := "pending removal in python 3.15".toList

/-- A feature-search question (no removal pattern). -/
def q_fs : List Char := "tell me about asyncio".toList

/-- A question with "deprecated", "how many" and "ticket" but no "scrum-". -/
def q_c2 : List Char := "how many deprecated tickets are open".toList

/-- A question containing a ticket key. -/
def q_c6 : List Char := "show me SCRUM-42 content".toList

/-- A question without any scrum-digits pattern. -/
def q_c9 : List Char := "what is in the first ticket".toList

/-- Backlog item of the spec's BACKLOG_PICKUP example. -/
def taskSsl : BacklogTask :=
  ⟨"Deprecate old SSL".toList, "Remove SSL v2/v3 support".toList, "ssl_notes.txt".toList⟩

/-- Ticket whose summary equals `taskSsl`'s title up to case. -/
def ticketSsl : JiraTicket :=
  ⟨"SCRUM-9".toList, "deprecate old ssl".toList, "To Do".toList, "desc".toList, none⟩

/-- Backlog item of the spec's DEPRECATION_GAP example. -/
def taskRemoveAsyncio : BacklogTask :=
  ⟨"Remove asyncio.coroutine support".toList, "notes".toList, "notes.txt".toList⟩

/-- Sample ticket, as in `JiraConnector`'s mock data. -/
def tSample : JiraTicket :=
  ⟨"SCRUM-1".toList, "Deprecate old C API".toList, "Testing".toList,
    "Task for SCRUM-1".toList, none⟩

/-- A ticket provider that finds nothing. -/
def gNone : List Char → Option JiraTicket := fun _ => none

/-- A ticket provider that returns `tSample` for every key. -/
def gSome : List Char → Option JiraTicket := fun _ => some tSample

/-! Helper lemmas. -/

/-- Reduction of `find_deprecations` when the removal pattern matches. -/
theorem find_deprecations_removal {q : List Char} {deps : List DeprecationInfo}
    {t : List Char} (h : removalSearch (lcase q) = some t) :
    find_deprecations q deps = ⟨MatchMode.REMOVAL_LIST, some t, removalHits t deps⟩ := by
  unfold find_deprecations
  rw [h]

/-- Reduction of `find_deprecations` when the removal pattern does not match. -/
theorem find_deprecations_feature {q : List Char} {deps : List DeprecationInfo}
    (h : removalSearch (lcase q) = none) :
    find_deprecations q deps = ⟨MatchMode.FEATURE_SEARCH, none, featureHits q deps⟩ := by
  unfold find_deprecations
  rw [h]

/-- Inserting `a` into `l` with the descending-key relation leaves the
subsequence of elements of any fixed key `s` unchanged except for `a` being
prepended when `k a = s`: the elements passed over by the insertion all have
keys strictly greater than `k a`. -/
theorem filter_key_orderedInsert {α : Type*} (k : α → Nat) (s : Nat) (a : α) :
    ∀ l : List α,
      (List.orderedInsert (keyDesc k) a l).filter (fun x => k x == s) =
        if k a = s then a :: l.filter (fun x => k x == s)
        else l.filter (fun x => k x == s)
  | [] => by
    simp only [List.orderedInsert, List.filter_cons, List.filter_nil]
    by_cases has : k a = s <;> simp [has, beq_iff_eq]
  | b :: l => by
    by_cases hab : keyDesc k a b
    · rw [List.orderedInsert_of_le _ _ hab]
      by_cases has : k a = s <;> simp [List.filter_cons, has, beq_iff_eq]
    · have hins : List.orderedInsert (keyDesc k) a (b :: l) =
          b :: List.orderedInsert (keyDesc k) a l := by
        simp [List.orderedInsert, hab]
      have hk : k a < k b := Nat.lt_of_not_le hab
      rw [hins, List.filter_cons, filter_key_orderedInsert k s a l]
      by_cases has : k a = s
      · have hbs : ¬ (k b = s) := by
          intro hbs
          exact Nat.ne_of_gt hk (has ▸ hbs)
        simp [has, hbs, List.filter_cons, beq_iff_eq]
      · by_cases hbs : k b = s <;> simp [has, hbs, List.filter_cons, beq_iff_eq]

/-- Stability of the descending-key insertion sort, phrased per key value:
the subsequence of elements of key `s` comes out exactly as it went in. -/
theorem filter_key_insertionSort {α : Type*} (k : α → Nat) (s : Nat) :
    ∀ l : List α,
      (List.insertionSort (keyDesc k) l).filter (fun x => k x == s) =
        l.filter (fun x => k x == s)
  | [] => rfl
  | a :: l => by
    show (List.orderedInsert (keyDesc k) a (List.insertionSort (keyDesc k) l)).filter
        (fun x => k x == s) = _
    rw [filter_key_orderedInsert, filter_key_insertionSort k s l, List.filter_cons]
    by_cases has : k a = s <;> simp [has, beq_iff_eq]

/-- Filtering a take yields a leading segment of filtering the whole list. -/
theorem filter_take_isPre {α : Type*} (p : α → Bool) (n : Nat) (l : List α) :
    (l.take n).filter p <+: l.filter p :=
  ⟨(l.drop n).filter p, by rw [← List.filter_append, List.take_append_drop]⟩

/-! Claim theorems. -/

/-- C1: for every question whose lowercased text matches the pattern
"pending removal in python 3.N" (with captured version `t`) and every
catalog, `_find_deprecations` returns mode REMOVAL_LIST with target exactly
`t`, and its hits are exactly the subsequence of catalog records whose
version-removed field equals the target under case-insensitive comparison,
in catalog order; this branch is taken for every catalog — including ones
producing an empty hits list — so it never falls back to keyword search. -/
theorem C1_removal_list (q t : List Char) (catalog : List DeprecationInfo)
    (h : removalSearch (lcase q) = some t) :
    (find_deprecations q catalog).mode = MatchMode.REMOVAL_LIST ∧
    (find_deprecations q catalog).target = some t ∧
    (find_deprecations q catalog).hits =
      catalog.filter (fun d => lcase (d.version_removed.getD []) == lcase t) ∧
    List.Sublist (find_deprecations q catalog).hits catalog := by
  rw [find_deprecations_removal h]
  exact ⟨rfl, rfl, rfl, List.filter_sublist catalog⟩

/-- Witness for C1 at a concrete removal question and two-record catalog:
the pattern captures "3.12" and only the record removed in 3.12 is hit. -/
theorem C1_removal_list_witness :
    removalSearch (lcase q_c1) = some "3.12".toList ∧
    (find_deprecations q_c1 catalog2).mode = MatchMode.REMOVAL_LIST ∧
    (find_deprecations q_c1 catalog2).target = some "3.12".toList ∧
    (find_deprecations q_c1 catalog2).hits = [recSsl] := by
  have h : removalSearch (lcase q_c1) = some "3.12".toList := by decide
  have hc := C1_removal_list q_c1 "3.12".toList catalog2 h
  refine ⟨h, hc.1, hc.2.1, ?_⟩
  rw [hc.2.2.1]
  decide

/-- C10: for every question and catalog the target of the `MatchResult` is
the leftmost capture of the removal pattern (hence `none` exactly on the
FEATURE_SEARCH branch): the target is present if and only if the mode is
REMOVAL_LIST, and on the REMOVAL_LIST branch it is the captured version
string. -/
theorem C10_target_iff_mode (q : List Char) (catalog : List DeprecationInfo) :
    (find_deprecations q catalog).target = removalSearch (lcase q) ∧
    ((find_deprecations q catalog).target.isSome ↔
      (find_deprecations q catalog).mode = MatchMode.REMOVAL_LIST) := by
  cases h : removalSearch (lcase q) with
  | none => rw [find_deprecations_feature h]; simp
  | some t => rw [find_deprecations_removal h]; simp

/-- C4 counterexample: an eleven-record catalog all of whose records are
removed in 3.15 together with a "pending removal in python 3.15" question
gives a REMOVAL_LIST result with eleven hits, so the hits of a `MatchResult`
are not capped at 10 in both modes. -/
theorem C4_counterexample :
    ¬ ((find_deprecations q_removal15 catalog11).hits.length ≤ 10) := by decide

/-- C4 (amended): the 10-record cap on the hits of a `MatchResult` holds on
the FEATURE_SEARCH branch; on the REMOVAL_LIST branch the hits are all
matching catalog records, without a cap. -/
theorem C4_cap_feature_search (q : List Char) (catalog : List DeprecationInfo)
    (h : (find_deprecations q catalog).mode = MatchMode.FEATURE_SEARCH) :
    (find_deprecations q catalog).hits.length ≤ 10 := by
  cases hr : removalSearch (lcase q) with
  | none =>
    rw [find_deprecations_feature hr]
    exact List.length_take_le 10 _
  | some t =>
    rw [find_deprecations_removal hr] at h
    simp at h

/-- Witness for C4 (amended) at a concrete feature-search question. -/
theorem C4_cap_feature_search_witness :
    (find_deprecations q_fs catalog2).mode = MatchMode.FEATURE_SEARCH ∧
    (find_deprecations q_fs catalog2).hits.length ≤ 10 :=
  ⟨by decide, C4_cap_feature_search q_fs catalog2 (by decide)⟩

/-- C3: when the classification HTTP call raises, `OllamaClient` swallows
the exception into the string "Error calling Ollama: ..." and the router,
finding none of the eight intent names in it, silently produces GENERAL for
a plain question — the failure is not surfaced, contradicting the claim.
Evaluated here at the failing input: question "hello", transport error
"connection refused". -/
theorem C3_classifier_failure_swallowed :
    routeIntent "hello".toList (ollamaErrorReply "connection refused".toList) =
      "GENERAL".toList := by decide

/-- C5: on the FEATURE_SEARCH path the hits list (a) has length at most 10,
(b) is ordered by non-increasing token-match score and, for ties, keeps the
catalog order — for every positive score value `s`, the hits of score `s`
are a leading segment of the catalog records of score `s`, in catalog
order — and (c) contains no record of score 0; when the tokenized query is
empty every record scores 0 and the hits list is empty. -/
theorem C5_feature_search (q : List Char) (catalog : List DeprecationInfo) (s : Nat)
    (hq : removalSearch (lcase q) = none) (hs : 0 < s) :
    (find_deprecations q catalog).hits.length ≤ 10 ∧
    (find_deprecations q catalog).hits.Pairwise
      (fun a b => scoreOf (tokensOf q) b ≤ scoreOf (tokensOf q) a) ∧
    ((find_deprecations q catalog).hits.filter
        (fun d => scoreOf (tokensOf q) d == s) <+:
      catalog.filter (fun d => scoreOf (tokensOf q) d == s)) ∧
    (find_deprecations q catalog).hits.all
      (fun d => decide (0 < scoreOf (tokensOf q) d)) = true ∧
    (tokensOf q = [] → (find_deprecations q catalog).hits = []) := by
  rw [find_deprecations_feature hq]
  dsimp only
  simp only [featureHits]
  refine ⟨List.length_take_le 10 _, ?_, ?_, ?_, ?_⟩
  · have hL : (List.insertionSort (keyDesc (scoreOf (tokensOf q))) catalog).Pairwise
        (keyDesc (scoreOf (tokensOf q))) :=
      List.sorted_insertionSort (keyDesc (scoreOf (tokensOf q))) catalog
    exact List.Pairwise.sublist (List.take_sublist 10 _)
      (hL.filter (fun d => decide (0 < scoreOf (tokensOf q) d)))
  · have h1 := filter_take_isPre (fun d => scoreOf (tokensOf q) d == s) 10
      ((List.insertionSort (keyDesc (scoreOf (tokensOf q))) catalog).filter
        (fun d => decide (0 < scoreOf (tokensOf q) d)))
    have h2 : ((List.insertionSort (keyDesc (scoreOf (tokensOf q))) catalog).filter
          (fun d => decide (0 < scoreOf (tokensOf q) d))).filter
            (fun d => scoreOf (tokensOf q) d == s) =
        (List.insertionSort (keyDesc (scoreOf (tokensOf q))) catalog).filter
          (fun d => scoreOf (tokensOf q) d == s) := by
      rw [List.filter_filter]
      refine List.filter_congr ?_
      intro x _
      by_cases hxs : scoreOf (tokensOf q) x = s
      · simp [hxs, hs]
      · simp [hxs]
    have h3 := filter_key_insertionSort (scoreOf (tokensOf q)) s catalog
    rw [h2, h3] at h1
    exact h1
  · rw [List.all_eq_true]
    intro x hx
    have hx2 : x ∈ (List.insertionSort (keyDesc (scoreOf (tokensOf q))) catalog).filter
        (fun d => decide (0 < scoreOf (tokensOf q) d)) := List.mem_of_mem_take hx
    exact (List.mem_filter.mp hx2).2
  · intro h0
    simp [h0, scoreOf]

/-- Witness for C5 at a concrete feature-search question, two-record catalog
and score bound 1; the hits evaluate to exactly the asyncio record. -/
theorem C5_feature_search_witness :
    removalSearch (lcase q_fs) = none ∧ 0 < 1 ∧
    (find_deprecations q_fs catalog2).hits = [recAsyncio] ∧
    (find_deprecations q_fs catalog2).hits.length ≤ 10 ∧
    ((find_deprecations q_fs catalog2).hits.filter
        (fun d => scoreOf (tokensOf q_fs) d == 1) <+:
      catalog2.filter (fun d => scoreOf (tokensOf q_fs) d == 1)) ∧
    (find_deprecations q_fs catalog2).hits.all
      (fun d => decide (0 < scoreOf (tokensOf q_fs) d)) = true := by
  have hc := C5_feature_search q_fs catalog2 1 (by decide) (by decide)
  exact ⟨by decide, by decide, by decide, hc.1, hc.2.2.1, hc.2.2.2.1⟩

/-- C2 counterexample: the question "how many deprecated tickets are open"
contains "deprecated", "how many" and "ticket" and no "scrum-", yet the
router's final intent is JIRA_COUNT, not DEPRECATION_INFO — the JIRA_COUNT
override runs after the deprecation override and overwrites it (here even
when the classifier itself replied DEPRECATION_INFO). -/
theorem C2_counterexample :
    routeIntent q_c2 "DEPRECATION_INFO".toList ≠ "DEPRECATION_INFO".toList ∧
    routeIntent q_c2 "DEPRECATION_INFO".toList = "JIRA_COUNT".toList := by decide

/-- C2 (amended): for every question containing "deprecated", "how many" and
"ticket" but not "scrum-", the intent produced by the router after all
deterministic overrides is JIRA_COUNT regardless of the classifier reply:
the JIRA_COUNT override is evaluated after the deprecation override (it is
an else only of the "scrum-" override) and wins. -/
theorem C2_amended (q r : List Char)
    (_hdep : subIn "deprecated".toList (lcase q) = true)
    (hhm : subIn "how many".toList (lcase q) = true)
    (htk : subIn "ticket".toList (lcase q) = true)
    (hsc : subIn "scrum-".toList (lcase q) = false) :
    routeIntent q r = "JIRA_COUNT".toList := by
  have hm : ("JIRA_COUNT".toList : List Char) ∈ valid_intents := by decide
  simp at hhm htk hsc
  simp [routeIntent, hsc, hhm, htk, hm]
  exact fun _ => hm

/-- Witness for C2 (amended) at the concrete question, with a GENERAL reply. -/
theorem C2_amended_witness :
    subIn "deprecated".toList (lcase q_c2) = true ∧
    subIn "how many".toList (lcase q_c2) = true ∧
    subIn "ticket".toList (lcase q_c2) = true ∧
    subIn "scrum-".toList (lcase q_c2) = false ∧
    routeIntent q_c2 "GENERAL".toList = "JIRA_COUNT".toList :=
  ⟨by decide, by decide, by decide, by decide,
    C2_amended q_c2 "GENERAL".toList (by decide) (by decide) (by decide) (by decide)⟩

/-- C6: for every question containing "scrum-" (any letter case) the router
returns JIRA_DETAIL for every classifier reply, and two runs differing only
in the classifier reply agree — the ticket-key override runs after the
deprecation override, so no reply and no other keyword can change the
outcome. -/
theorem C6_scrum_forces_jira_detail (q r1 r2 : List Char)
    (h : subIn "scrum-".toList (lcase q) = true) :
    routeIntent q r1 = "JIRA_DETAIL".toList ∧
    routeIntent q r1 = routeIntent q r2 := by
  have key : ∀ r : List Char, routeIntent q r = "JIRA_DETAIL".toList := by
    intro r
    have hm : ("JIRA_DETAIL".toList : List Char) ∈ valid_intents := by decide
    have h2 := h
    simp at h2
    simp [routeIntent, h2, hm]
    exact fun _ => hm
  exact ⟨key r1, (key r1).trans (key r2).symm⟩

/-- Witness for C6 at "show me SCRUM-42 content" with two different replies. -/
theorem C6_scrum_forces_jira_detail_witness :
    subIn "scrum-".toList (lcase q_c6) = true ∧
    routeIntent q_c6 "GENERAL".toList = "JIRA_DETAIL".toList ∧
    routeIntent q_c6 "GENERAL".toList = routeIntent q_c6 "BACKLOG_LIST".toList :=
  ⟨by decide,
    (C6_scrum_forces_jira_detail q_c6 "GENERAL".toList "BACKLOG_LIST".toList (by decide)).1,
    (C6_scrum_forces_jira_detail q_c6 "GENERAL".toList "BACKLOG_LIST".toList (by decide)).2⟩

/-- C7: a backlog item survives the BACKLOG_PICKUP filter exactly when its
lowercased title equals no ticket's lowercased summary (case-insensitive
exact equality, not substring), and when no item survives the context is the
"everything already in Jira" message. -/
theorem C7_backlog_pickup (tasks : List BacklogTask) (tickets : List JiraTicket) :
    (∀ t, t ∈ pickup_list tasks tickets ↔
        (t ∈ tasks ∧ ∀ tk ∈ tickets, lcase t.title ≠ lcase tk.summary)) ∧
    (pickup_list tasks tickets = [] →
      backlogPickupContext tasks tickets =
        "Everything in backlog is already in Jira.".toList) ∧
    pickup_list [taskSsl] [ticketSsl] = [] := by
  refine ⟨?_, ?_, by decide⟩
  · intro t
    simp only [pickup_list, List.mem_filter, Bool.not_eq_true']
    simp [List.contains, List.mem_map]
    intro _
    constructor
    · intro hno tk htk heq
      exact hno tk htk heq.symm
    · intro hno tk htk heq
      exact hno tk htk heq.symm
  · intro h
    simp [backlogPickupContext, h]

/-- Witness for C7 at the spec's example: backlog title "Deprecate old SSL"
against ticket summary "deprecate old ssl" yields an empty pickup list and
the "everything already in Jira" message. -/
theorem C7_backlog_pickup_witness :
    pickup_list [taskSsl] [ticketSsl] = [] ∧
    backlogPickupContext [taskSsl] [ticketSsl] =
      "Everything in backlog is already in Jira.".toList :=
  ⟨by decide, (C7_backlog_pickup [taskSsl] [ticketSsl]).2.1 (by decide)⟩

/-- C8: a catalog record is a DEPRECATION_GAP gap exactly when its lowercased
feature name occurs as a substring of no lowercased backlog title; with
feature "asyncio.coroutine" and backlog title "Remove asyncio.coroutine
support" the record is NOT a gap, while "smtpd module" against the same
backlog IS a gap; and when no record is a gap the context is the "all
represented" sentence. -/
theorem C8_deprecation_gap (deps : List DeprecationInfo) (tasks : List BacklogTask) :
    (∀ d, d ∈ gap_items deps tasks ↔
        (d ∈ deps ∧ ∀ tk ∈ tasks, subIn (lcase d.feature) (lcase tk.title) = false)) ∧
    (gap_items deps tasks = [] →
      gapContext deps tasks =
        "All deprecations seem to be represented in the backlog.".toList) ∧
    gap_items [recAsyncio] [taskRemoveAsyncio] = [] ∧
    gap_items [recSmtpd] [taskRemoveAsyncio] = [recSmtpd] := by
  refine ⟨?_, ?_, by decide, by decide⟩
  · intro d
    simp only [gap_items, List.mem_filter, Bool.not_eq_true']
    simp [List.any_eq_true, List.mem_map]
  · intro h
    simp [gapContext, h]

/-- Witness for C8 at the spec's example catalog and backlog. -/
theorem C8_deprecation_gap_witness :
    gap_items [recAsyncio] [taskRemoveAsyncio] = [] ∧
    gapContext [recAsyncio] [taskRemoveAsyncio] =
      "All deprecations seem to be represented in the backlog.".toList :=
  ⟨by decide, (C8_deprecation_gap [recAsyncio] [taskRemoveAsyncio]).2.1 (by decide)⟩

/-- C9: the JIRA_DETAIL context is total on the ticket-key pattern: with no
"scrum-digits" pattern in the lowercased question it is the explicit "could
not identify ticket key" message and no ticket lookup occurs (the result is
the same for every ticket provider); with a pattern capturing digits `ds`
the provider is consulted at exactly the reconstructed upper-case key
"SCRUM-" ++ ds and the context is the ticket's full field block or a "not
found" message naming that key; every branch returns a string, none raises. -/
theorem C9_jira_detail (q : List Char) (g1 g2 : List Char → Option JiraTicket) :
    jiraDetailContext q g1 =
      (match scrumFind (lcase q) with
       | some ds =>
         (match g1 (scrumKey ds) with
          | some t => ticketBlock t
          | none => "Ticket ".toList ++ scrumKey ds ++ " not found.".toList)
       | none => "Could not identify ticket key (SCRUM-XXX) in query.".toList) ∧
    (scrumFind (lcase q) = none →
      jiraDetailContext q g1 =
        "Could not identify ticket key (SCRUM-XXX) in query.".toList ∧
      jiraDetailContext q g1 = jiraDetailContext q g2) := by
  refine ⟨rfl, fun h => ?_⟩
  have e1 : jiraDetailContext q g1 =
      "Could not identify ticket key (SCRUM-XXX) in query.".toList := by
    unfold jiraDetailContext
    rw [h]
  have e2 : jiraDetailContext q g2 =
      "Could not identify ticket key (SCRUM-XXX) in query.".toList := by
    unfold jiraDetailContext
    rw [h]
  exact ⟨e1, e1.trans e2.symm⟩

/-- Witness for C9: a question with no ticket-key pattern yields the "could
not identify" message under a provider that finds nothing and under one that
returns a ticket for every key — the provider is never consulted. -/
theorem C9_jira_detail_witness :
    scrumFind (lcase q_c9) = none ∧
    jiraDetailContext q_c9 gNone =
      "Could not identify ticket key (SCRUM-XXX) in query.".toList ∧
    jiraDetailContext q_c9 gNone = jiraDetailContext q_c9 gSome :=
  ⟨by decide, ((C9_jira_detail q_c9 gNone gSome).2 (by decide)).1,
    ((C9_jira_detail q_c9 gNone gSome).2 (by decide)).2⟩
